import Mathlib

/-!
Verification of the DW1000 UWB transceiver driver (DW1000.py).

This file shallowly embeds the parts of the driver needed to settle the
spec claims: the SPI transaction header encoding, timestamp wraparound,
the receive-power estimate, the mode tuning pipeline, the timestamp bias
correction, the interrupt-mask save/restore sequencing of forceTRxOff,
the double-buffer pointer synchronisation, and the transmit sequence
number.

The repository ships several modules that are not available here
(DW1000Constants.py, DW1000Register.py, MAC.py, Helper.py).  Definitions
that stand in for those modules carry a doc comment starting with
`Modelled from the spec:` and follow the natural-language specification;
everything else is translated directly from DW1000.py.
-/

namespace DW1000

/-- Byte i (little endian) of a natural number, as Python `(n >> (8*i)) & 0xFF`. -/
def byteOf (n i : ℕ) : ℕ := (n >>> (8 * i)) % 256

/-! ## Transaction header encoding (readBytes / writeBytes, DW1000.py lines 314-391) -/

/-- Modelled from the spec: read flag for a plain-address transaction header
(constant C.READ of the missing DW1000Constants module; the spec calls it the
read-or-write flag OR-ed with the register address). -/
def READ : ℕ := 0x00

/-- Modelled from the spec: write flag for a plain-address transaction header
(constant C.WRITE of the missing DW1000Constants module). -/
def WRITE : ℕ := 0x80

/-- Modelled from the spec: read flag carrying the sub-address-present bit
(constant C.READ_SUB of the missing DW1000Constants module). -/
def READ_SUB : ℕ := 0x40

/-- Modelled from the spec: write flag carrying the sub-address-present bit
(constant C.WRITE_SUB of the missing DW1000Constants module). -/
def WRITE_SUB : ℕ := 0xC0

/-- Modelled from the spec: extended-address flag placed in the second header
byte (constant C.RW_SUB_EXT of the missing DW1000Constants module).  The spec
stores the low 7 bits of the sub-address beside it, which forces the flag to
be bit 7. -/
def RW_SUB_EXT : ℕ := 0x80

/-- Modelled from the spec: least-significant-byte mask (constant
C.MASK_LS_BYTE of the missing DW1000Constants module). -/
def MASK_LS_BYTE : ℕ := 0xFF

/-- Modelled from the spec: two-least-significant-bytes mask (constant
C.MASK_LS_2BYTES of the missing DW1000Constants module). -/
def MASK_LS_2BYTES : ℕ := 0xFFFF

/-- Transaction header built by readBytes and writeBytes (DW1000.py lines
314-391).  Both functions build the same header, differing only in the flag
constants; the Python sentinel C.NO_SUB for the offset is rendered as
Option.none.  The returned list is the first headerLen bytes of the 3-byte
header buffer. -/
def transactionHeader (flagPlain flagSub cmd : ℕ) (offset : Option ℕ) : List ℕ :=
  match offset with
  | none => [flagPlain ||| cmd]
  | some off =>
      if off < 128 then
        [flagSub ||| cmd, off]
      else
        [flagSub ||| cmd, (RW_SUB_EXT ||| off) &&& MASK_LS_BYTE, off >>> 7]

/-- Header built by readBytes (DW1000.py lines 324-337). -/
def readBytesHeader (cmd : ℕ) (offset : Option ℕ) : List ℕ :=
  transactionHeader READ READ_SUB cmd offset

/-- Header built by writeBytes (DW1000.py lines 365-378). -/
def writeBytesHeader (cmd : ℕ) (offset : Option ℕ) : List ℕ :=
  transactionHeader WRITE WRITE_SUB cmd offset

/-- Decoder of the sub-address carried by a transaction header, used to state
the round-trip property of the encoding. -/
def decodeSubAddress (hdr : List ℕ) : Option ℕ :=
  match hdr with
  | [_] => none
  | [_, b1] => some b1
  | [_, b1, b2] => some ((b1 &&& 0x7F) ||| (b2 <<< 7))
  | _ => none

/-! ## Timestamp wraparound (wrapTimestamp, DW1000.py lines 1495-1507) -/

/-- Modelled from the spec: the 40-bit timestamp modulus (constant
C.TIME_OVERFLOW of the missing DW1000Constants module; the spec states the
timestamp wraps modulo 2^40). -/
def TIME_OVERFLOW : ℤ := 2 ^ 40

/-- wrapTimestamp (DW1000.py lines 1495-1507): add the modulus to negative
timestamp differences. -/
def wrapTimestamp (timestamp : ℤ) : ℤ :=
  if timestamp < 0 then timestamp + TIME_OVERFLOW else timestamp

/-! ## Pulse-frequency, data-rate, preamble and channel codes -/

/-- Modelled from the spec: hardware code for the 16 MHz pulse repetition
frequency (constant of the missing DW1000Constants module). -/
def TX_PULSE_FREQ_16MHZ : ℕ := 0x01

/-- Modelled from the spec: hardware code for the 64 MHz pulse repetition
frequency (constant of the missing DW1000Constants module). -/
def TX_PULSE_FREQ_64MHZ : ℕ := 0x02

/-- Modelled from the spec: hardware code for the 110 kbps data rate
(constant of the missing DW1000Constants module). -/
def TRX_RATE_110KBPS : ℕ := 0x00

/-- Modelled from the spec: hardware code for the 850 kbps data rate
(constant of the missing DW1000Constants module). -/
def TRX_RATE_850KBPS : ℕ := 0x01

/-- Modelled from the spec: hardware code for the 6800 kbps data rate
(constant of the missing DW1000Constants module). -/
def TRX_RATE_6800KBPS : ℕ := 0x02

/-- Modelled from the spec: hardware code for a 64-symbol preamble
(constant of the missing DW1000Constants module). -/
def TX_PREAMBLE_LEN_64 : ℕ := 0x04

/-- Modelled from the spec: hardware code for a 128-symbol preamble
(constant of the missing DW1000Constants module). -/
def TX_PREAMBLE_LEN_128 : ℕ := 0x14

/-- Modelled from the spec: hardware code for a 1536-symbol preamble
(constant of the missing DW1000Constants module). -/
def TX_PREAMBLE_LEN_1536 : ℕ := 0x18

/-- Modelled from the spec: hardware code for a 2048-symbol preamble
(constant of the missing DW1000Constants module). -/
def TX_PREAMBLE_LEN_2048 : ℕ := 0x28

/-- Modelled from the spec: hardware code for a 4096-symbol preamble
(constant of the missing DW1000Constants module). -/
def TX_PREAMBLE_LEN_4096 : ℕ := 0x0C

/-- Modelled from the spec: channel codes (constants of the missing
DW1000Constants module). -/
def CHANNEL_1 : ℕ := 1

/-- Modelled from the spec: channel code 2. -/
def CHANNEL_2 : ℕ := 2

/-- Modelled from the spec: channel code 3. -/
def CHANNEL_3 : ℕ := 3

/-- Modelled from the spec: channel code 4. -/
def CHANNEL_4 : ℕ := 4

/-- Modelled from the spec: channel code 5. -/
def CHANNEL_5 : ℕ := 5

/-- Modelled from the spec: channel code 7. -/
def CHANNEL_7 : ℕ := 7

/-- Modelled from the spec: preamble-acquisition-chunk size code 8. -/
def PAC_SIZE_8 : ℕ := 8

/-- Modelled from the spec: preamble-acquisition-chunk size code 16. -/
def PAC_SIZE_16 : ℕ := 16

/-- Modelled from the spec: preamble-acquisition-chunk size code 32. -/
def PAC_SIZE_32 : ℕ := 32

/-- Modelled from the spec: preamble-acquisition-chunk size code 64. -/
def PAC_SIZE_64 : ℕ := 64

/-! ## Receive power estimate (getReceivePower, DW1000.py lines 1185-1211) -/

/-- Modelled from the spec: 16 MHz constant A of the power formula
(constant A_16MHZ of the missing DW1000Constants module). -/
def A_16MHZ : ℚ := 113.77

/-- Modelled from the spec: 16 MHz saturation-correction factor
(constant CORRFAC_16MHZ of the missing DW1000Constants module). -/
def CORRFAC_16MHZ : ℚ := 2.3334

/-- Modelled from the spec: 64 MHz constant A of the power formula
(constant A_64MHZ of the missing DW1000Constants module). -/
def A_64MHZ : ℚ := 121.74

/-- Modelled from the spec: 64 MHz saturation-correction factor
(constant CORRFAC_64MHZ of the missing DW1000Constants module). -/
def CORRFAC_64MHZ : ℚ := 1.1667

/-- Modelled from the spec: the constant 2^17 of the receive-power formula
(constant TWOPOWER17 of the missing DW1000Constants module). -/
def TWOPOWER17 : ℚ := 131072

/-- Modelled from the spec: the low-power threshold magnitude; the code
compares the estimate against -PWR_COEFF (constant PWR_COEFF of the missing
DW1000Constants module; the spec calls -PWR_COEFF the fixed low-power
threshold, so PWR_COEFF is positive). -/
def PWR_COEFF : ℚ := 88

/-- Modelled from the spec: the 10 of the 10*log10 power formula
(constant PWR_COEFF2 of the missing DW1000Constants module). -/
def PWR_COEFF2 : ℚ := 10

/-- getReceivePower (DW1000.py lines 1185-1211), as a function of the raw
register reads: cir is the 16-bit CIR-power field, N the preamble
accumulation count from the frame-info register.  The floating-point
computation is embedded over the rationals with the base-10 logarithm
abstracted as a parameter; the code applies the logarithm only when its
argument is positive, so the parameter never influences the guarded branch. -/
def getReceivePower (log10 : ℚ → ℚ) (pulseFrequency : ℕ) (cir N : ℕ) : ℚ :=
  let A : ℚ := if pulseFrequency = TX_PULSE_FREQ_16MHZ then A_16MHZ else A_64MHZ
  let corrFac : ℚ := if pulseFrequency = TX_PULSE_FREQ_16MHZ then CORRFAC_16MHZ else CORRFAC_64MHZ
  let arg : ℚ := ((cir : ℚ) * TWOPOWER17) / ((N : ℚ) * (N : ℚ))
  let estRXPower : ℚ := if arg > 0 then PWR_COEFF2 * log10 arg - A else 0
  if estRXPower ≤ -PWR_COEFF then estRXPower
  else estRXPower + (estRXPower + PWR_COEFF) * corrFac

/-! ## Timestamp bias correction (correctTimestamp, DW1000.py lines 1259-1330) -/

/-- Modelled from the spec: range-bias table for 500 MHz channels at 16 MHz
PRF, stored as signed magnitudes (constant BIAS_500_16 of the missing
DW1000Constants module; the exact entries are irrelevant to the claims). -/
def BIAS_500_16 : List ℕ :=
  [198, 187, 179, 163, 143, 127, 109, 84, 59, 31, 0, 36, 65, 84, 97, 106, 110, 112]

/-- Modelled from the spec: negative-below-threshold marker of BIAS_500_16. -/
def BIAS_500_16_ZERO : ℕ := 10

/-- Modelled from the spec: range-bias table for 500 MHz channels at 64 MHz
PRF (constant BIAS_500_64 of the missing DW1000Constants module). -/
def BIAS_500_64 : List ℕ :=
  [110, 105, 100, 93, 82, 69, 51, 27, 0, 21, 35, 42, 49, 62, 71, 76, 81, 86]

/-- Modelled from the spec: negative-below-threshold marker of BIAS_500_64. -/
def BIAS_500_64_ZERO : ℕ := 8

/-- Modelled from the spec: range-bias table for 900 MHz channels (4 and 7)
at 16 MHz PRF (constant BIAS_900_16 of the missing DW1000Constants module). -/
def BIAS_900_16 : List ℕ :=
  [137, 122, 105, 88, 69, 47, 25, 0, 21, 48, 79, 105, 127, 147, 160, 169, 178, 197]

/-- Modelled from the spec: negative-below-threshold marker of BIAS_900_16. -/
def BIAS_900_16_ZERO : ℕ := 7

/-- Modelled from the spec: range-bias table for 900 MHz channels (4 and 7)
at 64 MHz PRF (constant BIAS_900_64 of the missing DW1000Constants module). -/
def BIAS_900_64 : List ℕ :=
  [147, 133, 117, 99, 75, 50, 29, 0, 24, 45, 63, 76, 87, 98, 116, 122, 132, 142]

/-- Modelled from the spec: negative-below-threshold marker of BIAS_900_64. -/
def BIAS_900_64_ZERO : ℕ := 7

/-- Modelled from the spec: inverse propagation-speed constant used to turn a
range bias into a time delta (constant DISTANCE_OF_RADIO_INV of the missing
DW1000Constants module; its exact value is irrelevant to the claims). -/
def DISTANCE_OF_RADIO_INV : ℚ := 213.139451293

/-- Modelled from the spec: fixed factor applied with the propagation
constant (constant ADJUSTMENT_TIME_FACTOR of the missing DW1000Constants
module; its exact value is irrelevant to the claims). -/
def ADJUSTMENT_TIME_FACTOR : ℚ := 0.25

/-- The real-valued bracket index computed by correctTimestamp (line 1269):
rxPowerBase = -(receive power + 61.0) * 0.5, embedded over the rationals. -/
def rxPowerBaseOf (rxPower : ℚ) : ℚ := -(rxPower + 61.0) * 0.5

/-- The clamping of the bracket bounds (DW1000.py lines 1270-1278):
low = floor(base), high = low + 1, then clamp into [0, 17]. -/
def clampBracket (rxPowerBaseLow rxPowerBaseHigh : ℤ) : ℤ × ℤ :=
  if rxPowerBaseLow < 0 then (0, 0)
  else if rxPowerBaseHigh > 17 then (17, 17)
  else (rxPowerBaseLow, rxPowerBaseHigh)

/-- The table selection of correctTimestamp (lines 1280-1325): channels 4 and
7 use the 900 MHz tables, the rest the 500 MHz tables, each split by pulse
frequency.  A pulse-frequency code that is neither the 16 MHz nor the 64 MHz
code leaves the Python local variables unbound (a NameError at their use),
rendered here as Option.none. -/
def biasTableFor (channel pulseFrequency : ℕ) : Option (List ℕ × ℕ) :=
  if channel = CHANNEL_4 ∨ channel = CHANNEL_7 then
    if pulseFrequency = TX_PULSE_FREQ_16MHZ then some (BIAS_900_16, BIAS_900_16_ZERO)
    else if pulseFrequency = TX_PULSE_FREQ_64MHZ then some (BIAS_900_64, BIAS_900_64_ZERO)
    else none
  else
    if pulseFrequency = TX_PULSE_FREQ_16MHZ then some (BIAS_500_16, BIAS_500_16_ZERO)
    else if pulseFrequency = TX_PULSE_FREQ_64MHZ then some (BIAS_500_64, BIAS_500_64_ZERO)
    else none

/-- Sign restoration and left-shift by 1 applied to a bias-table entry at a
clamped index (DW1000.py lines 1282-1325): negate below the per-table zero
marker, then shift left by one bit, which on a Python integer of either sign
is multiplication by 2. -/
def signedBiasEntry (tbl : List ℕ) (zeroMark : ℕ) (i : ℤ) : ℤ :=
  (if i < (zeroMark : ℤ) then -(tbl.getD i.toNat 0 : ℤ) else (tbl.getD i.toNat 0 : ℤ)) * 2

/-- The interpolated range bias of correctTimestamp (lines 1269-1327), as a
function of the receive-power estimate it starts from. -/
def rangeBiasOf (channel pulseFrequency : ℕ) (rxPower : ℚ) : Option ℚ :=
  let rxPowerBase := rxPowerBaseOf rxPower
  let rxPowerBaseLow : ℤ := ⌊rxPowerBase⌋
  let rxPowerBaseHigh : ℤ := rxPowerBaseLow + 1
  let lh := clampBracket rxPowerBaseLow rxPowerBaseHigh
  match biasTableFor channel pulseFrequency with
  | none => none
  | some tz =>
      let rangeBiasHigh : ℤ := signedBiasEntry tz.1 tz.2 lh.2
      let rangeBiasLow : ℤ := signedBiasEntry tz.1 tz.2 lh.1
      some ((rangeBiasLow : ℚ) + (rxPowerBase - (lh.1 : ℚ)) * ((rangeBiasHigh : ℚ) - (rangeBiasLow : ℚ)))

/-- correctTimestamp (DW1000.py lines 1259-1330) as a function of the
receive-power estimate and the raw timestamp: the interpolated range bias is
converted to a time delta and added to the timestamp. -/
def correctTimestamp (channel pulseFrequency : ℕ) (rxPower timestamp : ℚ) : Option ℚ :=
  (rangeBiasOf channel pulseFrequency rxPower).map
    (fun rangeBias => timestamp + rangeBias * DISTANCE_OF_RADIO_INV * ADJUSTMENT_TIME_FACTOR)

/-! ## Register model and the tuning pipeline (tune, DW1000.py lines 722-795) -/

/-- Modelled from the spec: the RegisterModel (DW1000Register.py is not under
src).  A register is identified by its address, optional sub-address and
fixed byte size; the ordered byte buffer is represented by its little-endian
value, zero-filled at creation. -/
structure Reg where
  address : ℕ
  subaddress : Option ℕ
  size : ℕ
  value : ℕ
deriving DecidableEq

/-- Modelled from the spec: register creation zero-fills the buffer. -/
def mkReg (address : ℕ) (subaddress : Option ℕ) (size : ℕ) : Reg :=
  ⟨address, subaddress, size, 0⟩

/-- Modelled from the spec: writeValue scatters an integer little-endian
across the buffer, i.e. keeps its value modulo 2^(8*size). -/
def Reg.writeValue (r : Reg) (n : ℕ) : Reg :=
  { r with value := n % 2 ^ (8 * r.size) }

/-- The six-field operation mode cached by the driver (the operationMode list
created in DW1000.py line 84 and filled by the dedicated setters). -/
structure OperationMode where
  dataRate : ℕ
  pulseFrequency : ℕ
  pacSize : ℕ
  preambleLength : ℕ
  channel : ℕ
  preacode : ℕ
deriving DecidableEq

/-- Modelled from the spec: register file addresses used by tune (constants
of the missing DW1000Constants module; exact values are irrelevant to the
claims). -/
def AGC_CTRL : ℕ := 0x23

/-- Modelled from the spec: DRX configuration register file address. -/
def DRX_CONF : ℕ := 0x27

/-- Modelled from the spec: RF configuration register file address. -/
def RF_CONF : ℕ := 0x28

/-- Modelled from the spec: transmitter calibration register file address. -/
def TX_CAL : ℕ := 0x2A

/-- Modelled from the spec: frequency synthesiser register file address. -/
def FS_CTRL : ℕ := 0x2B

/-- Modelled from the spec: LDE interface register file address. -/
def LDE_CTRL : ℕ := 0x2E

/-- Modelled from the spec: transmit power register address. -/
def TX_POWER : ℕ := 0x1E

/-- Modelled from the spec: sub-addresses of the tuning registers (constants
of the missing DW1000Constants module). -/
def AGC_TUNE1_SUB : ℕ := 0x04

/-- Modelled from the spec: AGC_TUNE2 sub-address. -/
def AGC_TUNE2_SUB : ℕ := 0x0C

/-- Modelled from the spec: AGC_TUNE3 sub-address. -/
def AGC_TUNE3_SUB : ℕ := 0x12

/-- Modelled from the spec: DRX_TUNE0b sub-address. -/
def DRX_TUNE0b_SUB : ℕ := 0x02

/-- Modelled from the spec: DRX_TUNE1a sub-address. -/
def DRX_TUNE1a_SUB : ℕ := 0x04

/-- Modelled from the spec: DRX_TUNE1b sub-address. -/
def DRX_TUNE1b_SUB : ℕ := 0x06

/-- Modelled from the spec: DRX_TUNE2 sub-address. -/
def DRX_TUNE2_SUB : ℕ := 0x08

/-- Modelled from the spec: DRX_TUNE4H sub-address. -/
def DRX_TUNE4H_SUB : ℕ := 0x26

/-- Modelled from the spec: RF_RXCTRLH sub-address. -/
def RF_RXCTRLH_SUB : ℕ := 0x0B

/-- Modelled from the spec: RF_TXCTRL sub-address. -/
def RF_TXCTRL_SUB : ℕ := 0x0C

/-- Modelled from the spec: TC_PGDELAY sub-address. -/
def TC_PGDELAY_SUB : ℕ := 0x0B

/-- Modelled from the spec: FS_PLLCFG sub-address. -/
def FS_PLLCFG_SUB : ℕ := 0x07

/-- Modelled from the spec: FS_PLLTUNE sub-address. -/
def FS_PLLTUNE_SUB : ℕ := 0x0B

/-- Modelled from the spec: FS_XTALT sub-address, the crystal-trim register. -/
def FS_XTALT_SUB : ℕ := 0x0E

/-- Modelled from the spec: LDE_CFG1 sub-address. -/
def LDE_CFG1_SUB : ℕ := 0x0806

/-- Modelled from the spec: LDE_CFG2 sub-address. -/
def LDE_CFG2_SUB : ℕ := 0x1806

/-- Modelled from the spec: LDE_REPC sub-address. -/
def LDE_REPC_SUB : ℕ := 0x2804

/-- Modelled from the spec: manufacturer tuning value AGC_TUNE1 for 16 MHz
PRF (missing DW1000Constants module; exact values are irrelevant to the
claims). -/
def AGC_TUNE1_16MHZ_OP : ℕ := 0x8870

/-- Modelled from the spec: manufacturer tuning value AGC_TUNE1 default. -/
def AGC_TUNE1_DEFAULT_OP : ℕ := 0x889B

/-- Modelled from the spec: manufacturer tuning value AGC_TUNE2. -/
def AGC_TUNE2_OP : ℕ := 0x2502A907

/-- Modelled from the spec: manufacturer tuning value AGC_TUNE3. -/
def AGC_TUNE3_OP : ℕ := 0x0035

/-- Modelled from the spec: manufacturer tuning value DRX_TUNE0b, 110 kbps. -/
def DRX_TUNE0b_110KBPS_NOSTD_OP : ℕ := 0x0016

/-- Modelled from the spec: manufacturer tuning value DRX_TUNE0b, 850 kbps. -/
def DRX_TUNE0b_850KBPS_NOSTD_OP : ℕ := 0x0006

/-- Modelled from the spec: manufacturer tuning value DRX_TUNE0b, 6800 kbps. -/
def DRX_TUNE0b_6800KBPS_STD_OP : ℕ := 0x0001

/-- Modelled from the spec: manufacturer tuning value DRX_TUNE1a, 16 MHz. -/
def DRX_TUNE1a_16MHZ_OP : ℕ := 0x0087

/-- Modelled from the spec: manufacturer tuning value DRX_TUNE1a, 64 MHz. -/
def DRX_TUNE1a_64MHZ_OP : ℕ := 0x008D

/-- Modelled from the spec: manufacturer tuning value LDE_CFG2, 16 MHz. -/
def LDE_CFG2_16MHZ_OP : ℕ := 0x1607

/-- Modelled from the spec: manufacturer tuning value LDE_CFG2, 64 MHz. -/
def LDE_CFG2_64MHZ_OP : ℕ := 0x0607

/-- Modelled from the spec: manufacturer tuning value DRX_TUNE1b for long
preambles at 110 kbps. -/
def DRX_TUNE1b_M1024 : ℕ := 0x0064

/-- Modelled from the spec: manufacturer tuning value DRX_TUNE1b for medium
preambles at 850 or 6800 kbps. -/
def DRX_TUNE1b_L1024 : ℕ := 0x0020

/-- Modelled from the spec: manufacturer tuning value DRX_TUNE1b for the
64-symbol preamble at 6800 kbps. -/
def DRX_TUNE1b_64 : ℕ := 0x0010

/-- Modelled from the spec: manufacturer tuning values DRX_TUNE2 keyed by
PAC size and pulse frequency. -/
def DRX_TUNE2_8_16MHZ : ℕ := 0x311A002D

/-- Modelled from the spec: DRX_TUNE2, PAC 8, 64 MHz. -/
def DRX_TUNE2_8_64MHZ : ℕ := 0x313B006B

/-- Modelled from the spec: DRX_TUNE2, PAC 16, 16 MHz. -/
def DRX_TUNE2_16_16MHZ : ℕ := 0x331A0052

/-- Modelled from the spec: DRX_TUNE2, PAC 16, 64 MHz. -/
def DRX_TUNE2_16_64MHZ : ℕ := 0x333B00BE

/-- Modelled from the spec: DRX_TUNE2, PAC 32, 16 MHz. -/
def DRX_TUNE2_32_16MHZ : ℕ := 0x351A009A

/-- Modelled from the spec: DRX_TUNE2, PAC 32, 64 MHz. -/
def DRX_TUNE2_32_64MHZ : ℕ := 0x353B015E

/-- Modelled from the spec: DRX_TUNE2, PAC 64, 16 MHz. -/
def DRX_TUNE2_64_16MHZ : ℕ := 0x371A011D

/-- Modelled from the spec: DRX_TUNE2, PAC 64, 64 MHz. -/
def DRX_TUNE2_64_64MHZ : ℕ := 0x373B0296

/-- Modelled from the spec: DRX_TUNE4H for the 64-symbol preamble. -/
def DRX_TUNE4H_64 : ℕ := 0x0010

/-- Modelled from the spec: DRX_TUNE4H for preambles of 128 symbols or more. -/
def DRX_TUNE4H_128 : ℕ := 0x0028

/-- Modelled from the spec: RF_RXCTRLH for channels 1, 2, 3 and 5. -/
def RF_RXCTRLH_1235 : ℕ := 0xD8

/-- Modelled from the spec: RF_RXCTRLH for channels 4 and 7. -/
def RF_RXCTRLH_147 : ℕ := 0xBC

/-- Modelled from the spec: RF_TXCTRL for channel 1. -/
def RF_TXCTRL_1 : ℕ := 0x00005C40

/-- Modelled from the spec: RF_TXCTRL for channel 2. -/
def RF_TXCTRL_2 : ℕ := 0x00045CA0

/-- Modelled from the spec: RF_TXCTRL for channel 3. -/
def RF_TXCTRL_3 : ℕ := 0x00086CC0

/-- Modelled from the spec: RF_TXCTRL for channel 4. -/
def RF_TXCTRL_4 : ℕ := 0x00045C80

/-- Modelled from the spec: RF_TXCTRL for channel 5. -/
def RF_TXCTRL_5 : ℕ := 0x001E3FE0

/-- Modelled from the spec: RF_TXCTRL for channel 7. -/
def RF_TXCTRL_7 : ℕ := 0x001E7DE0

/-- Modelled from the spec: TC_PGDELAY for channel 1. -/
def TC_PGDELAY_1 : ℕ := 0xC9

/-- Modelled from the spec: TC_PGDELAY for channel 2. -/
def TC_PGDELAY_2 : ℕ := 0xC2

/-- Modelled from the spec: TC_PGDELAY for channel 3. -/
def TC_PGDELAY_3 : ℕ := 0xC5

/-- Modelled from the spec: TC_PGDELAY for channel 4. -/
def TC_PGDELAY_4 : ℕ := 0x95

/-- Modelled from the spec: TC_PGDELAY for channel 5. -/
def TC_PGDELAY_5 : ℕ := 0xC0

/-- Modelled from the spec: TC_PGDELAY for channel 7. -/
def TC_PGDELAY_7 : ℕ := 0x93

/-- Modelled from the spec: FS_PLLCFG for channel 1. -/
def FS_PLLCFG_1 : ℕ := 0x09000407

/-- Modelled from the spec: FS_PLLCFG for channels 2 and 4. -/
def FS_PLLCFG_24 : ℕ := 0x08400508

/-- Modelled from the spec: FS_PLLCFG for channel 3. -/
def FS_PLLCFG_3 : ℕ := 0x08401009

/-- Modelled from the spec: FS_PLLCFG for channels 5 and 7. -/
def FS_PLLCFG_57 : ℕ := 0x0800041D

/-- Modelled from the spec: FS_PLLTUNE for channel 1. -/
def FS_PLLTUNE_1 : ℕ := 0x1E

/-- Modelled from the spec: FS_PLLTUNE for channels 2 and 4. -/
def FS_PLLTUNE_24 : ℕ := 0x26

/-- Modelled from the spec: FS_PLLTUNE for channel 3. -/
def FS_PLLTUNE_3 : ℕ := 0x56

/-- Modelled from the spec: FS_PLLTUNE for channels 5 and 7. -/
def FS_PLLTUNE_57 : ℕ := 0xBE

/-- Modelled from the spec: TX_POWER for channels 1 and 2, 16 MHz PRF. -/
def TX_POWER_12_16MHZ : ℕ := 0x75757575

/-- Modelled from the spec: TX_POWER for channels 1 and 2, 64 MHz PRF. -/
def TX_POWER_12_64MHZ : ℕ := 0x67676767

/-- Modelled from the spec: TX_POWER for channel 3, 16 MHz PRF. -/
def TX_POWER_3_16MHZ : ℕ := 0x6F6F6F6F

/-- Modelled from the spec: TX_POWER for channel 3, 64 MHz PRF. -/
def TX_POWER_3_64MHZ : ℕ := 0x8B8B8B8B

/-- Modelled from the spec: TX_POWER for channel 4, 16 MHz PRF. -/
def TX_POWER_4_16MHZ : ℕ := 0x5F5F5F5F

/-- Modelled from the spec: TX_POWER for channel 4, 64 MHz PRF. -/
def TX_POWER_4_64MHZ : ℕ := 0x9A9A9A9A

/-- Modelled from the spec: TX_POWER for channel 5, 16 MHz PRF. -/
def TX_POWER_5_16MHZ : ℕ := 0x48484848

/-- Modelled from the spec: TX_POWER for channel 5, 64 MHz PRF. -/
def TX_POWER_5_64MHZ : ℕ := 0x85858585

/-- Modelled from the spec: TX_POWER for channel 7, 16 MHz PRF. -/
def TX_POWER_7_16MHZ : ℕ := 0x92929292

/-- Modelled from the spec: TX_POWER for channel 7, 64 MHz PRF. -/
def TX_POWER_7_64MHZ : ℕ := 0xD1D1D1D1

/-- Modelled from the spec: LDE_CFG1 operating value. -/
def LDE_CFG1_OP : ℕ := 0x0D

/-- Modelled from the spec: LDE_REPC value for preamble codes 1 and 2. -/
def LDE_REPC_1AND2 : ℕ := 0x5998

/-- Modelled from the spec: LDE_REPC value for preamble codes 3 and 8. -/
def LDE_REPC_3AND8 : ℕ := 0x51EA

/-- Modelled from the spec: LDE_REPC value for preamble code 4. -/
def LDE_REPC_4 : ℕ := 0x428E

/-- Modelled from the spec: LDE_REPC value for preamble code 5. -/
def LDE_REPC_5 : ℕ := 0x451E

/-- Modelled from the spec: LDE_REPC value for preamble code 6. -/
def LDE_REPC_6 : ℕ := 0x2E14

/-- Modelled from the spec: LDE_REPC value for preamble code 7. -/
def LDE_REPC_7 : ℕ := 0x8000

/-- Modelled from the spec: LDE_REPC value for preamble code 9. -/
def LDE_REPC_9 : ℕ := 0x28F4

/-- Modelled from the spec: LDE_REPC value for preamble codes 10 and 17. -/
def LDE_REPC_1017 : ℕ := 0x3332

/-- Modelled from the spec: LDE_REPC value for preamble codes 11, 13 and 21. -/
def LDE_REPC_111321 : ℕ := 0x3AE0

/-- Modelled from the spec: LDE_REPC value for preamble code 12. -/
def LDE_REPC_12 : ℕ := 0x3D70

/-- Modelled from the spec: LDE_REPC value for preamble codes 14, 16, 18, 19. -/
def LDE_REPC_14161819 : ℕ := 0x35C2

/-- Modelled from the spec: LDE_REPC value for preamble code 20. -/
def LDE_REPC_20 : ℕ := 0x47AE

/-- Modelled from the spec: 16 MHz preamble codes (missing DW1000Constants
module; the code number is the constant value). -/
def PREAMBLE_CODE_16MHZ_1 : ℕ := 1

/-- Modelled from the spec: 16 MHz preamble code 2. -/
def PREAMBLE_CODE_16MHZ_2 : ℕ := 2

/-- Modelled from the spec: 16 MHz preamble code 3. -/
def PREAMBLE_CODE_16MHZ_3 : ℕ := 3

/-- Modelled from the spec: 16 MHz preamble code 4. -/
def PREAMBLE_CODE_16MHZ_4 : ℕ := 4

/-- Modelled from the spec: 16 MHz preamble code 5. -/
def PREAMBLE_CODE_16MHZ_5 : ℕ := 5

/-- Modelled from the spec: 16 MHz preamble code 6. -/
def PREAMBLE_CODE_16MHZ_6 : ℕ := 6

/-- Modelled from the spec: 16 MHz preamble code 7. -/
def PREAMBLE_CODE_16MHZ_7 : ℕ := 7

/-- Modelled from the spec: 16 MHz preamble code 8. -/
def PREAMBLE_CODE_16MHZ_8 : ℕ := 8

/-- Modelled from the spec: 64 MHz preamble code 9. -/
def PREAMBLE_CODE_64MHZ_9 : ℕ := 9

/-- Modelled from the spec: 64 MHz preamble code 10. -/
def PREAMBLE_CODE_64MHZ_10 : ℕ := 10

/-- Modelled from the spec: 64 MHz preamble code 11. -/
def PREAMBLE_CODE_64MHZ_11 : ℕ := 11

/-- Modelled from the spec: 64 MHz preamble code 12. -/
def PREAMBLE_CODE_64MHZ_12 : ℕ := 12

/-- Modelled from the spec: 64 MHz preamble code 17. -/
def PREAMBLE_CODE_64MHZ_17 : ℕ := 17

/-- Modelled from the spec: 64 MHz preamble code 18. -/
def PREAMBLE_CODE_64MHZ_18 : ℕ := 18

/-- Modelled from the spec: 64 MHz preamble code 19. -/
def PREAMBLE_CODE_64MHZ_19 : ℕ := 19

/-- Modelled from the spec: 64 MHz preamble code 20. -/
def PREAMBLE_CODE_64MHZ_20 : ℕ := 20

/-- Modelled from the spec: OTP address of the crystal-trim byte (constant
OTP_XTAL_ADDRESS of the missing DW1000Constants module). -/
def OTP_XTAL_ADDRESS : ℕ := 0x01E

/-- Modelled from the spec: nominal default crystal-trim constant substituted
when the OTP byte is zero (constant TUNE_OPERATION of the missing
DW1000Constants module). -/
def TUNE_OPERATION : ℕ := 0x10

/-- Modelled from the spec: crystal-trim field mask (constant TUNE_MASK1 of
the missing DW1000Constants module). -/
def TUNE_MASK1 : ℕ := 0x1F

/-- Modelled from the spec: fixed bits OR-ed into the crystal-trim register
(constant TUNE_MASK2 of the missing DW1000Constants module). -/
def TUNE_MASK2 : ℕ := 0x60

/-- tuneAgcTune1 (DW1000.py lines 852-864): AGC_TUNE1 by pulse frequency; an
unmatched code leaves the register untouched. -/
def tuneAgcTune1 (m : OperationMode) (agctune1 : Reg) : Reg :=
  if m.pulseFrequency = TX_PULSE_FREQ_16MHZ then agctune1.writeValue AGC_TUNE1_16MHZ_OP
  else if m.pulseFrequency = TX_PULSE_FREQ_64MHZ then agctune1.writeValue AGC_TUNE1_DEFAULT_OP
  else agctune1

/-- tuneDrxTune0b (DW1000.py lines 867-880): DRX_TUNE0b by data rate. -/
def tuneDrxTune0b (m : OperationMode) (drxtune0b : Reg) : Reg :=
  if m.dataRate = TRX_RATE_110KBPS then drxtune0b.writeValue DRX_TUNE0b_110KBPS_NOSTD_OP
  else if m.dataRate = TRX_RATE_850KBPS then drxtune0b.writeValue DRX_TUNE0b_850KBPS_NOSTD_OP
  else if m.dataRate = TRX_RATE_6800KBPS then drxtune0b.writeValue DRX_TUNE0b_6800KBPS_STD_OP
  else drxtune0b

/-- tuneDrxTune1aAndldecfg2 (DW1000.py lines 883-897): DRX_TUNE1a and
LDE_CFG2 by pulse frequency. -/
def tuneDrxTune1aAndldecfg2 (m : OperationMode) (drxtune1a ldecfg2 : Reg) : Reg × Reg :=
  if m.pulseFrequency = TX_PULSE_FREQ_16MHZ then
    (drxtune1a.writeValue DRX_TUNE1a_16MHZ_OP, ldecfg2.writeValue LDE_CFG2_16MHZ_OP)
  else if m.pulseFrequency = TX_PULSE_FREQ_64MHZ then
    (drxtune1a.writeValue DRX_TUNE1a_64MHZ_OP, ldecfg2.writeValue LDE_CFG2_64MHZ_OP)
  else (drxtune1a, ldecfg2)

/-- tuneDrxtune1b (DW1000.py lines 900-917).  In the branch for the
64-symbol preamble at 6800 kbps the Python code evaluates
drxtune1b(C.DRX_TUNE1b_64), calling the register object itself instead of
its writeValue method; the RegisterModel of the spec has no call operation,
so that expression raises a TypeError, rendered here as Except.error. -/
def tuneDrxtune1b (m : OperationMode) (drxtune1b : Reg) : Except String Reg :=
  if m.preambleLength = TX_PREAMBLE_LEN_1536 ∨ m.preambleLength = TX_PREAMBLE_LEN_2048 ∨
      m.preambleLength = TX_PREAMBLE_LEN_4096 then
    if m.dataRate = TRX_RATE_110KBPS then Except.ok (drxtune1b.writeValue DRX_TUNE1b_M1024)
    else Except.ok drxtune1b
  else if m.preambleLength ≠ TX_PREAMBLE_LEN_64 then
    if m.dataRate = TRX_RATE_850KBPS ∨ m.dataRate = TRX_RATE_6800KBPS then
      Except.ok (drxtune1b.writeValue DRX_TUNE1b_L1024)
    else Except.ok drxtune1b
  else
    if m.dataRate = TRX_RATE_6800KBPS then
      Except.error "TypeError: DW1000Register object is not callable"
    else Except.ok drxtune1b

/-- tuneDrxTune2 (DW1000.py lines 920-948): DRX_TUNE2 by PAC size and pulse
frequency. -/
def tuneDrxTune2 (m : OperationMode) (drxtune2 : Reg) : Reg :=
  if m.pacSize = PAC_SIZE_8 then
    if m.pulseFrequency = TX_PULSE_FREQ_16MHZ then drxtune2.writeValue DRX_TUNE2_8_16MHZ
    else if m.pulseFrequency = TX_PULSE_FREQ_64MHZ then drxtune2.writeValue DRX_TUNE2_8_64MHZ
    else drxtune2
  else if m.pacSize = PAC_SIZE_16 then
    if m.pulseFrequency = TX_PULSE_FREQ_16MHZ then drxtune2.writeValue DRX_TUNE2_16_16MHZ
    else if m.pulseFrequency = TX_PULSE_FREQ_64MHZ then drxtune2.writeValue DRX_TUNE2_16_64MHZ
    else drxtune2
  else if m.pacSize = PAC_SIZE_32 then
    if m.pulseFrequency = TX_PULSE_FREQ_16MHZ then drxtune2.writeValue DRX_TUNE2_32_16MHZ
    else if m.pulseFrequency = TX_PULSE_FREQ_64MHZ then drxtune2.writeValue DRX_TUNE2_32_64MHZ
    else drxtune2
  else if m.pacSize = PAC_SIZE_64 then
    if m.pulseFrequency = TX_PULSE_FREQ_16MHZ then drxtune2.writeValue DRX_TUNE2_64_16MHZ
    else if m.pulseFrequency = TX_PULSE_FREQ_64MHZ then drxtune2.writeValue DRX_TUNE2_64_64MHZ
    else drxtune2
  else drxtune2

/-- tuneAccToChan (DW1000.py lines 951-1017): RF_TXCTRL, TC_PGDELAY,
FS_PLLCFG, FS_PLLTUNE and TX_POWER by channel and pulse frequency.  The
tuple is (rftxctrl, tcpgdelay, fspllcfg, fsplltune, txpower). -/
def tuneAccToChan (m : OperationMode) (rftxctrl tcpgdelay fspllcfg fsplltune txpower : Reg) :
    Reg × Reg × Reg × Reg × Reg :=
  let txpowerFor : ℕ → ℕ → Reg := fun p16 p64 =>
    if m.pulseFrequency = TX_PULSE_FREQ_16MHZ then txpower.writeValue p16
    else if m.pulseFrequency = TX_PULSE_FREQ_64MHZ then txpower.writeValue p64
    else txpower
  if m.channel = CHANNEL_1 then
    (rftxctrl.writeValue RF_TXCTRL_1, tcpgdelay.writeValue TC_PGDELAY_1,
     fspllcfg.writeValue FS_PLLCFG_1, fsplltune.writeValue FS_PLLTUNE_1,
     txpowerFor TX_POWER_12_16MHZ TX_POWER_12_64MHZ)
  else if m.channel = CHANNEL_2 then
    (rftxctrl.writeValue RF_TXCTRL_2, tcpgdelay.writeValue TC_PGDELAY_2,
     fspllcfg.writeValue FS_PLLCFG_24, fsplltune.writeValue FS_PLLTUNE_24,
     txpowerFor TX_POWER_12_16MHZ TX_POWER_12_64MHZ)
  else if m.channel = CHANNEL_3 then
    (rftxctrl.writeValue RF_TXCTRL_3, tcpgdelay.writeValue TC_PGDELAY_3,
     fspllcfg.writeValue FS_PLLCFG_3, fsplltune.writeValue FS_PLLTUNE_3,
     txpowerFor TX_POWER_3_16MHZ TX_POWER_3_64MHZ)
  else if m.channel = CHANNEL_4 then
    (rftxctrl.writeValue RF_TXCTRL_4, tcpgdelay.writeValue TC_PGDELAY_4,
     fspllcfg.writeValue FS_PLLCFG_24, fsplltune.writeValue FS_PLLTUNE_24,
     txpowerFor TX_POWER_4_16MHZ TX_POWER_4_64MHZ)
  else if m.channel = CHANNEL_5 then
    (rftxctrl.writeValue RF_TXCTRL_5, tcpgdelay.writeValue TC_PGDELAY_5,
     fspllcfg.writeValue FS_PLLCFG_57, fsplltune.writeValue FS_PLLTUNE_57,
     txpowerFor TX_POWER_5_16MHZ TX_POWER_5_64MHZ)
  else if m.channel = CHANNEL_7 then
    (rftxctrl.writeValue RF_TXCTRL_7, tcpgdelay.writeValue TC_PGDELAY_7,
     fspllcfg.writeValue FS_PLLCFG_57, fsplltune.writeValue FS_PLLTUNE_57,
     txpowerFor TX_POWER_7_16MHZ TX_POWER_7_64MHZ)
  else (rftxctrl, tcpgdelay, fspllcfg, fsplltune, txpower)

/-- tunelderepc (DW1000.py lines 1020-1088): LDE_REPC by preamble code, with
the value shifted right by 3 (masked to 16 bits) at 110 kbps. -/
def tunelderepc (m : OperationMode) (lderepc : Reg) : Reg :=
  let pick : ℕ → Reg := fun v =>
    if m.dataRate = TRX_RATE_110KBPS then lderepc.writeValue ((v >>> 3) &&& MASK_LS_2BYTES)
    else lderepc.writeValue v
  if m.preacode = PREAMBLE_CODE_16MHZ_1 ∨ m.preacode = PREAMBLE_CODE_16MHZ_2 then
    pick LDE_REPC_1AND2
  else if m.preacode = PREAMBLE_CODE_16MHZ_3 ∨ m.preacode = PREAMBLE_CODE_16MHZ_8 then
    pick LDE_REPC_3AND8
  else if m.preacode = PREAMBLE_CODE_16MHZ_4 then pick LDE_REPC_4
  else if m.preacode = PREAMBLE_CODE_16MHZ_5 then pick LDE_REPC_5
  else if m.preacode = PREAMBLE_CODE_16MHZ_6 then pick LDE_REPC_6
  else if m.preacode = PREAMBLE_CODE_16MHZ_7 then pick LDE_REPC_7
  else if m.preacode = PREAMBLE_CODE_64MHZ_9 then pick LDE_REPC_9
  else if m.preacode = PREAMBLE_CODE_64MHZ_10 ∨ m.preacode = PREAMBLE_CODE_64MHZ_17 then
    pick LDE_REPC_1017
  else if m.preacode = PREAMBLE_CODE_64MHZ_11 then pick LDE_REPC_111321
  else if m.preacode = PREAMBLE_CODE_64MHZ_12 then pick LDE_REPC_12
  else if m.preacode = PREAMBLE_CODE_64MHZ_18 ∨ m.preacode = PREAMBLE_CODE_64MHZ_19 then
    pick LDE_REPC_14161819
  else if m.preacode = PREAMBLE_CODE_64MHZ_20 then pick LDE_REPC_20
  else lderepc

/-! ## Device state -/

/-- Modelled from the spec: register addresses of the system control, mask
and status registers (missing DW1000Constants module; only distinctness
matters for the claims). -/
def SYS_CTRL : ℕ := 0x0D

/-- Modelled from the spec: system-mask (interrupt-enable) register address. -/
def SYS_MASK : ℕ := 0x0E

/-- Modelled from the spec: system-status register address. -/
def SYS_STATUS : ℕ := 0x0F

/-- The mutable state of one driver instance together with the chip registers
it talks to.  The chip-side values live in the chip fields; the loc fields
are the host-side register buffers of the corresponding DW1000Register
objects (sysmask, sysctrl and sysstatus in DW1000.py lines 67-72),
represented by their little-endian values.  otpMem is the factory-programmed
one-time-programmable memory, a map from OTP address to the 32-bit word
readBytesOTP returns; it is read-only for the driver. -/
structure DeviceState where
  chipSysmask : ℕ
  chipSysctrl : ℕ
  chipSysstatus : ℕ
  locSysmask : ℕ
  locSysctrl : ℕ
  locSysstatus : ℕ
  dblbuffon : Bool
  irqEnabled : Bool
  seqNum : ℕ
  operationMode : OperationMode
  otpMem : ℕ → ℕ

/-- tune (DW1000.py lines 722-795): the ordered list of tuning registers
committed by the writeRegister calls of lines 778-795, or the Python
exception raised on the way there.  The crystal-trim byte is byte 0 of the
OTP word at OTP_XTAL_ADDRESS, exactly the buf_otp[0] of line 773; the
OTP-interface control writes performed by readBytesOTP are fixed and carry
no register value of the tuning profile, so they are left out of the list.
Lines 749-750 of the source write AGC_TUNE2_OP and then AGC_TUNE3_OP into
the same agctune2 register while agctune3 is never written; the model
preserves that behaviour. -/
def tune (s : DeviceState) : Except String (List Reg) :=
  let m := s.operationMode
  let agctune1 := tuneAgcTune1 m (mkReg AGC_CTRL (some AGC_TUNE1_SUB) 2)
  let agctune2 := ((mkReg AGC_CTRL (some AGC_TUNE2_SUB) 4).writeValue AGC_TUNE2_OP).writeValue AGC_TUNE3_OP
  let agctune3 := mkReg AGC_CTRL (some AGC_TUNE3_SUB) 2
  let drxtune0b := tuneDrxTune0b m (mkReg DRX_CONF (some DRX_TUNE0b_SUB) 2)
  let dl := tuneDrxTune1aAndldecfg2 m (mkReg DRX_CONF (some DRX_TUNE1a_SUB) 2)
      (mkReg LDE_CTRL (some LDE_CFG2_SUB) 2)
  match tuneDrxtune1b m (mkReg DRX_CONF (some DRX_TUNE1b_SUB) 2) with
  | Except.error e => Except.error e
  | Except.ok drxtune1b =>
      let drxtune2 := tuneDrxTune2 m (mkReg DRX_CONF (some DRX_TUNE2_SUB) 4)
      let drxtune4H :=
        if m.preambleLength = TX_PREAMBLE_LEN_64 then
          (mkReg DRX_CONF (some DRX_TUNE4H_SUB) 2).writeValue DRX_TUNE4H_64
        else (mkReg DRX_CONF (some DRX_TUNE4H_SUB) 2).writeValue DRX_TUNE4H_128
      let rfrxctrlh :=
        if m.channel ≠ CHANNEL_4 ∧ m.channel ≠ CHANNEL_7 then
          (mkReg RF_CONF (some RF_RXCTRLH_SUB) 1).writeValue RF_RXCTRLH_1235
        else (mkReg RF_CONF (some RF_RXCTRLH_SUB) 1).writeValue RF_RXCTRLH_147
      let acc := tuneAccToChan m (mkReg RF_CONF (some RF_TXCTRL_SUB) 4)
          (mkReg TX_CAL (some TC_PGDELAY_SUB) 1) (mkReg FS_CTRL (some FS_PLLCFG_SUB) 4)
          (mkReg FS_CTRL (some FS_PLLTUNE_SUB) 1) (mkReg TX_POWER none 4)
      let ldecfg1 := (mkReg LDE_CTRL (some LDE_CFG1_SUB) 1).writeValue LDE_CFG1_OP
      let lderepc := tunelderepc m (mkReg LDE_CTRL (some LDE_REPC_SUB) 2)
      let buf0 := byteOf (s.otpMem OTP_XTAL_ADDRESS) 0
      let fsxtalt :=
        if buf0 = 0 then
          (mkReg FS_CTRL (some FS_XTALT_SUB) 1).writeValue ((TUNE_OPERATION &&& TUNE_MASK1) ||| TUNE_MASK2)
        else
          (mkReg FS_CTRL (some FS_XTALT_SUB) 1).writeValue ((buf0 &&& TUNE_MASK1) ||| TUNE_MASK2)
      Except.ok [agctune1, agctune2, agctune3, drxtune0b, dl.1, drxtune1b, drxtune2,
        drxtune4H, ldecfg1, dl.2, lderepc, acc.2.2.2.2, rfrxctrlh, acc.1, acc.2.1,
        acc.2.2.2.1, acc.2.2.1, fsxtalt]

/-! ## Bus transactions and the interrupt-mask sequences
(toggleHSRBP, syncHSRBP, forceTRxOff; DW1000.py lines 227-282) -/

/-- Modelled from the spec: bit positions inside the 32-bit system control,
mask and 40-bit status registers (missing DW1000Constants module; the values
follow the hardware manual, and only their identities matter). -/
def TRXOFF_BIT : ℕ := 6

/-- Modelled from the spec: WAIT4RESP bit of the system control register. -/
def WAIT4RESP_BIT : ℕ := 7

/-- Modelled from the spec: host-side receive-buffer-pointer toggle bit of
the system control register. -/
def HRBPT_BIT : ℕ := 24

/-- Modelled from the spec: host-side receive-buffer-pointer status bit. -/
def HSRBP_BIT : ℕ := 30

/-- Modelled from the spec: chip-side receive-buffer-pointer status bit. -/
def ICRBP_BIT : ℕ := 31

/-- Modelled from the spec: receive-FCS-error interrupt-mask bit. -/
def MRXFCE_BIT : ℕ := 15

/-- Modelled from the spec: receive-FCS-good interrupt-mask bit. -/
def MRXFCG_BIT : ℕ := 14

/-- Modelled from the spec: receive-data-frame-ready interrupt-mask bit. -/
def MRXDFR_BIT : ℕ := 13

/-- Modelled from the spec: LDE-done interrupt-mask bit. -/
def MLDEDONE_BIT : ℕ := 10

/-- Modelled from the spec: transmit status bits TXFRB, TXPRS, TXPHS, TXFRS
(constant SYS_STATUS_ALL_TX of the missing DW1000Constants module, a list of
bit indices). -/
def SYS_STATUS_ALL_TX : List ℕ := [4, 5, 6, 7]

/-- Modelled from the spec: receive error status bits (constant
SYS_STATUS_ALL_RX_ERR of the missing DW1000Constants module). -/
def SYS_STATUS_ALL_RX_ERR : List ℕ := [12, 15, 16, 18, 29]

/-- Modelled from the spec: receive timeout status bits (constant
SYS_STATUS_ALL_RX_TO of the missing DW1000Constants module). -/
def SYS_STATUS_ALL_RX_TO : List ℕ := [17, 21, 26]

/-- Modelled from the spec: good-reception status bits (constant
SYS_STATUS_ALL_RX_GOOD of the missing DW1000Constants module). -/
def SYS_STATUS_ALL_RX_GOOD : List ℕ := [8, 9, 10, 11, 13, 14]

/-- Modelled from the spec: setBit of the RegisterModel on the value
representation of a register of the given bit width. -/
def setBitN (width n i : ℕ) (v : Bool) : ℕ :=
  if v then n ||| 2 ^ i else n &&& ((2 ^ width - 1) ^^^ 2 ^ i)

/-- Modelled from the spec: setBits applies setBit to a list of indices. -/
def setBitsN (width n : ℕ) (bits : List ℕ) (v : Bool) : ℕ :=
  bits.foldl (fun acc i => setBitN width acc i v) n

/-- Modelled from the spec: getBit of the RegisterModel. -/
def getBitN (n i : ℕ) : Bool := n.testBit i

/-- Modelled from the spec: write-1-to-clear semantics of the system status
register — writing a bit pattern clears exactly those bits on the chip,
never sets any (5-byte register). -/
def w1cWrite (old written : ℕ) : ℕ :=
  old &&& ((2 ^ 40 - 1) ^^^ (written &&& (2 ^ 40 - 1)))

/-- One observable action of the driver: a register transaction on the bus
or the removal of edge-interrupt delivery on the host. -/
inductive BusOp where
  | readReg : ℕ → Option ℕ → BusOp
  | writeReg : ℕ → Option ℕ → ℕ → BusOp
  | irqDisable : BusOp
deriving DecidableEq

/-- readRegister(self.sysmask) (DW1000.py line 202): load the chip value into
the host-side buffer. -/
def readSysmask (s : DeviceState) : DeviceState × List BusOp :=
  ({ s with locSysmask := s.chipSysmask }, [BusOp.readReg SYS_MASK none])

/-- writeRegister(self.sysmask) (DW1000.py line 215): commit the host-side
buffer to the chip. -/
def writeSysmask (s : DeviceState) : DeviceState × List BusOp :=
  ({ s with chipSysmask := s.locSysmask }, [BusOp.writeReg SYS_MASK none s.locSysmask])

/-- writeRegister(self.sysctrl). -/
def writeSysctrl (s : DeviceState) : DeviceState × List BusOp :=
  ({ s with chipSysctrl := s.locSysctrl }, [BusOp.writeReg SYS_CTRL none s.locSysctrl])

/-- readRegister(self.sysstatus). -/
def readSysstatus (s : DeviceState) : DeviceState × List BusOp :=
  ({ s with locSysstatus := s.chipSysstatus }, [BusOp.readReg SYS_STATUS none])

/-- writeRegister(self.sysstatus), applying the write-1-to-clear semantics
on the chip side. -/
def writeSysstatus (s : DeviceState) : DeviceState × List BusOp :=
  ({ s with chipSysstatus := w1cWrite s.chipSysstatus s.locSysstatus },
   [BusOp.writeReg SYS_STATUS none s.locSysstatus])

/-- disableInterrupt (DW1000.py lines 285-286): remove edge detection on the
interrupt pin. -/
def disableInterrupt (s : DeviceState) : DeviceState × List BusOp :=
  ({ s with irqEnabled := false }, [BusOp.irqDisable])

/-- clearStatus (DW1000.py lines 1427-1436): zero the local status buffer,
set exactly the given bits and commit. -/
def clearStatus (bits : List ℕ) (s : DeviceState) : DeviceState × List BusOp :=
  writeSysstatus { s with locSysstatus := setBitsN 40 0 bits true }

/-- toggleHSRBP (DW1000.py lines 227-243): with double buffering enabled,
save the interrupt mask, clear the four receive-completion mask bits and
commit, set the host-side buffer-pointer toggle bit in the control register
and commit, then restore and commit the saved mask.  With double buffering
disabled nothing happens. -/
def toggleHSRBP (s : DeviceState) : DeviceState × List BusOp :=
  if s.dblbuffon then
    let oldmask := s.locSysmask
    let rxbits := [MRXFCE_BIT, MRXFCG_BIT, MRXDFR_BIT, MLDEDONE_BIT]
    let s1 := { s with locSysmask := setBitsN 32 s.locSysmask rxbits false }
    let r2 := writeSysmask s1
    let s3 := { r2.1 with locSysctrl := setBitN 32 r2.1.locSysctrl HRBPT_BIT true }
    let r4 := writeSysctrl s3
    let s5 := { r4.1 with locSysmask := oldmask }
    let r6 := writeSysmask s5
    (r6.1, r2.2 ++ r4.2 ++ r6.2)
  else (s, [])

/-- syncHSRBP (DW1000.py lines 246-254): read the status register and toggle
the host-side buffer pointer exactly when the host-side and chip-side
pointer bits are equal. -/
def syncHSRBP (s : DeviceState) : DeviceState × List BusOp :=
  let r1 := readSysstatus s
  let hsrbp := getBitN r1.1.locSysstatus HSRBP_BIT
  let icrbp := getBitN r1.1.locSysstatus ICRBP_BIT
  if hsrbp = icrbp then
    let r2 := toggleHSRBP r1.1
    (r2.1, r1.2 ++ r2.2)
  else (r1.1, r1.2)

/-- forceTRxOff (DW1000.py lines 257-282): save the interrupt mask, disable
interrupt delivery, zero and commit the mask register, force the transceiver
off, clear the TX/RX status bits, resynchronise the buffer pointer, restore
and commit the saved mask, and finally clear the local WAIT4RESP bit
(local only, not committed). -/
def forceTRxOff (s : DeviceState) : DeviceState × List BusOp :=
  let r1 := readSysmask s
  let mask := r1.1.locSysmask
  let r2 := disableInterrupt r1.1
  let s3 := { r2.1 with locSysmask := 0 }
  let r4 := writeSysmask s3
  let s5 := { r4.1 with locSysctrl := setBitN 32 0 TRXOFF_BIT true }
  let r6 := writeSysctrl s5
  let r7 := clearStatus (SYS_STATUS_ALL_TX ++ SYS_STATUS_ALL_RX_ERR ++
      SYS_STATUS_ALL_RX_TO ++ SYS_STATUS_ALL_RX_GOOD) r6.1
  let r8 := syncHSRBP r7.1
  let s9 := { r8.1 with locSysmask := mask }
  let r10 := writeSysmask s9
  let s11 := { r10.1 with locSysctrl := setBitN 32 r10.1.locSysctrl WAIT4RESP_BIT false }
  (s11, r1.2 ++ r2.2 ++ r4.2 ++ r6.2 ++ r7.2 ++ r8.2 ++ r10.2)

/-! ## Transmit sequence number (DW1000.py lines 82 and 1510-1553) -/

/-- Modelled from the spec: MAC frame-type code FT_DATA of the missing MAC
module. -/
def FT_DATA : ℕ := 1

/-- Modelled from the spec: short-address addressing-mode code AD_SAD of the
missing MAC module. -/
def AD_SAD : ℕ := 2

/-- Modelled from the spec: frame-version code of the missing MAC module. -/
def IEEE802_15_4_2003 : ℕ := 0

/-- Modelled from the spec: the 802.15.4 MAC header assembled by sendMessage
(MAC.py is not under src); only the fields sendMessage assigns are
modelled. -/
structure MACHeader where
  frameType : ℕ
  secEnable : ℕ
  framePending : ℕ
  ackRequest : Bool
  panCompression : ℕ
  destAddrMode : ℕ
  frameVersion : ℕ
  srcAddrMode : ℕ
  seqNumber : ℕ
  destPAN : ℕ
  destAddr : ℕ
  srcAddr : ℕ
deriving DecidableEq

/-- The constructor draw for seqNum (DW1000.py line 82):
randrange(0, 256) returns an arbitrary value of [0, 256); the draw is made a
parameter of the model. -/
def initSeqNum (draw : ℕ) : ℕ := draw

/-- sendMessage (DW1000.py lines 1510-1553), restricted to the state and
header fields the claim is about: the header carries the current seqNum and
the stored seqNum becomes (seqNum + 1) mod 256 afterwards.  The body also
stages the frame into the transmit buffer and starts the transmission;
those bus transactions touch no field modelled here and are omitted. -/
def sendMessage (s : DeviceState) (dstAddr dstPAN srcAddr : ℕ) (ackReq : Bool) :
    DeviceState × MACHeader :=
  let header : MACHeader :=
    { frameType := FT_DATA, secEnable := 0, framePending := 0, ackRequest := ackReq,
      panCompression := 1, destAddrMode := AD_SAD, frameVersion := IEEE802_15_4_2003,
      srcAddrMode := AD_SAD, seqNumber := s.seqNum, destPAN := dstPAN,
      destAddr := dstAddr, srcAddr := srcAddr }
  ({ s with seqNum := (s.seqNum + 1) % 256 }, header)

/-! ## Concrete states for evaluation -/

/-- A fully-set operation mode: 6800 kbps, 64 MHz PRF, PAC 8, 128-symbol
preamble, channel 5, preamble code 9. -/
def exampleMode : OperationMode :=
  { dataRate := TRX_RATE_6800KBPS, pulseFrequency := TX_PULSE_FREQ_64MHZ,
    pacSize := PAC_SIZE_8, preambleLength := TX_PREAMBLE_LEN_128,
    channel := CHANNEL_5, preacode := PREAMBLE_CODE_64MHZ_9 }

/-- The same mode with the 64-symbol preamble, reaching the faulty
tuneDrxtune1b branch. -/
def exampleMode64 : OperationMode :=
  { exampleMode with preambleLength := TX_PREAMBLE_LEN_64 }

/-- A quiescent device state over a given mode, OTP word and spare fields. -/
def exampleState (om : OperationMode) (otpWord seq chipMask : ℕ) : DeviceState :=
  { chipSysmask := chipMask, chipSysctrl := 0, chipSysstatus := 0,
    locSysmask := 0, locSysctrl := 0, locSysstatus := 0,
    dblbuffon := false, irqEnabled := false, seqNum := seq,
    operationMode := om, otpMem := fun _ => otpWord }

/-- The committed register list of a successful tune run, for concrete
evaluation in the witnesses. -/
def tuneOk (s : DeviceState) : List Reg := (tune s).toOption.getD []

/-- The status value forceTRxOff writes to clear all TX/RX error, timeout
and good status bits (DW1000.py lines 273-274). -/
def trxStatusClearVal : ℕ :=
  setBitsN 40 0 (SYS_STATUS_ALL_TX ++ SYS_STATUS_ALL_RX_ERR ++
    SYS_STATUS_ALL_RX_TO ++ SYS_STATUS_ALL_RX_GOOD) true

/-! ## Helper lemmas -/

theorem and_two_pow_sub_one_eq_mod (x n : ℕ) : x &&& (2 ^ n - 1) = x % 2 ^ n := by
  apply Nat.eq_of_testBit_eq
  intro i
  simp only [Nat.testBit_and, Nat.testBit_two_pow_sub_one, Nat.testBit_mod_two_pow]
  cases x.testBit i <;> simp

theorem extByte2_eq (off : ℕ) : (0x80 ||| off) &&& 0xFF = (off &&& 0x7F) ||| 0x80 := by
  apply Nat.eq_of_testBit_eq
  intro i
  have h80 : (0x80 : ℕ) = 2 ^ 7 := by norm_num
  have hFF : (0xFF : ℕ) = 2 ^ 8 - 1 := by norm_num
  have h7F : (0x7F : ℕ) = 2 ^ 7 - 1 := by norm_num
  simp only [h80, hFF, h7F, Nat.testBit_and, Nat.testBit_or, Nat.testBit_two_pow,
    Nat.testBit_two_pow_sub_one]
  rcases lt_trichotomy i 7 with h | h | h
  · simp [h, Nat.lt_succ_of_lt h, Nat.ne_of_gt h]
  · subst h; simp
  · have h7 : ¬ i < 7 := by omega
    have h8 : ¬ i < 8 := by omega
    have hne : ¬ (7 = i) := by omega
    simp [h7, h8, hne]

theorem extHeader_roundtrip (off : ℕ) :
    ((((0x80 ||| off) &&& 0xFF) &&& 0x7F) ||| ((off >>> 7) <<< 7)) = off := by
  apply Nat.eq_of_testBit_eq
  intro i
  have h80 : (0x80 : ℕ) = 2 ^ 7 := by norm_num
  have hFF : (0xFF : ℕ) = 2 ^ 8 - 1 := by norm_num
  have h7F : (0x7F : ℕ) = 2 ^ 7 - 1 := by norm_num
  simp only [h80, hFF, h7F, Nat.testBit_and, Nat.testBit_or, Nat.testBit_two_pow,
    Nat.testBit_two_pow_sub_one, Nat.testBit_shiftLeft, Nat.testBit_shiftRight]
  rcases lt_or_ge i 7 with hi | hi
  · have hle : ¬ 7 ≤ i := by omega
    simp [hi, hle, Nat.lt_succ_of_lt hi, Nat.ne_of_gt hi]
  · have h1 : ¬ i < 7 := by omega
    have h2 : 7 + (i - 7) = i := by omega
    by_cases he : i = 7
    · subst he; simp
    · have h8 : decide (7 = i) = false := by simp; omega
      simp [h1, hi, h2, h8]

theorem setBitsN_zero_false (w : ℕ) (bits : List ℕ) : setBitsN w 0 bits false = 0 := by
  induction bits with
  | nil => rfl
  | cons b bs ih =>
      have hstep : setBitN w 0 b false = 0 := by simp [setBitN]
      show setBitsN w (setBitN w 0 b false) bs false = 0
      rw [hstep]
      exact ih

/-! ## Claim theorems -/

/-- C5: for 40-bit timestamps a and b with a < b, wrapTimestamp applied to
a - b yields (a - b) + 2^40, which is non-negative and below 2^40; and every
non-negative input is returned unchanged. -/
theorem C5_wrapTimestamp (a b : ℤ) (ha0 : 0 ≤ a) (ha : a < 2 ^ 40) (hb0 : 0 ≤ b)
    (hb : b < 2 ^ 40) (hab : a < b) :
    wrapTimestamp (a - b) = (a - b) + 2 ^ 40 ∧
    0 ≤ wrapTimestamp (a - b) ∧ wrapTimestamp (a - b) < 2 ^ 40 ∧
    ∀ t : ℤ, 0 ≤ t → wrapTimestamp t = t := by
  have h1 : a - b < 0 := by omega
  refine ⟨?_, ?_, ?_, ?_⟩
  · simp only [wrapTimestamp, TIME_OVERFLOW, if_pos h1]
  · simp only [wrapTimestamp, TIME_OVERFLOW, if_pos h1]; omega
  · simp only [wrapTimestamp, TIME_OVERFLOW, if_pos h1]; omega
  · intro t ht
    simp only [wrapTimestamp, TIME_OVERFLOW]
    rw [if_neg (by omega)]

/-- Witness for C5 at a = 5, b = 9. -/
theorem C5_wrapTimestamp_witness :
    ((0:ℤ) ≤ 5 ∧ (5:ℤ) < 2 ^ 40 ∧ (0:ℤ) ≤ 9 ∧ (9:ℤ) < 2 ^ 40 ∧ (5:ℤ) < 9) ∧
    (wrapTimestamp (5 - 9) = (5 - 9) + 2 ^ 40 ∧
     0 ≤ wrapTimestamp (5 - 9) ∧ wrapTimestamp ((5:ℤ) - 9) < 2 ^ 40 ∧
     ∀ t : ℤ, 0 ≤ t → wrapTimestamp t = t) :=
  ⟨by norm_num,
   C5_wrapTimestamp 5 9 (by norm_num) (by norm_num) (by norm_num) (by norm_num) (by norm_num)⟩

/-- C3: the transaction header of readBytes and writeBytes is one byte
(flag OR address) without a sub-address, two bytes with byte1 = offset for
offsets below 128, three bytes with byte2 = (offset AND 0x7F) OR the
extended flag and byte3 = offset shifted right by 7 for offsets of 128 and
above, and the encoding round-trips over the full valid sub-address range. -/
theorem C3_header_encoding (cmd off : ℕ) (hoff : off < 2 ^ 15) :
    (readBytesHeader cmd none = [READ ||| cmd] ∧
     writeBytesHeader cmd none = [WRITE ||| cmd]) ∧
    (off < 128 →
      readBytesHeader cmd (some off) = [READ_SUB ||| cmd, off] ∧
      writeBytesHeader cmd (some off) = [WRITE_SUB ||| cmd, off]) ∧
    (128 ≤ off →
      readBytesHeader cmd (some off) =
        [READ_SUB ||| cmd, (off &&& 0x7F) ||| RW_SUB_EXT, off >>> 7] ∧
      writeBytesHeader cmd (some off) =
        [WRITE_SUB ||| cmd, (off &&& 0x7F) ||| RW_SUB_EXT, off >>> 7]) ∧
    decodeSubAddress (readBytesHeader cmd (some off)) = some off := by
  refine ⟨⟨rfl, rfl⟩, ?_, ?_, ?_⟩
  · intro h
    constructor <;> simp [readBytesHeader, writeBytesHeader, transactionHeader, h]
  · intro h
    have hn : ¬ off < 128 := by omega
    constructor <;>
      simp [readBytesHeader, writeBytesHeader, transactionHeader, hn, RW_SUB_EXT,
        MASK_LS_BYTE, extByte2_eq]
  · by_cases h : off < 128
    · simp [readBytesHeader, transactionHeader, h, decodeSubAddress]
    · simp only [readBytesHeader, transactionHeader, if_neg h, decodeSubAddress,
        RW_SUB_EXT, MASK_LS_BYTE]
      exact congrArg some (extHeader_roundtrip off)

/-- Witness for C3 at cmd = 0x0D, off = 200. -/
theorem C3_header_encoding_witness :
    (200 < 2 ^ 15) ∧
    ((readBytesHeader 0x0D none = [READ ||| 0x0D] ∧
      writeBytesHeader 0x0D none = [WRITE ||| 0x0D]) ∧
     (200 < 128 →
       readBytesHeader 0x0D (some 200) = [READ_SUB ||| 0x0D, 200] ∧
       writeBytesHeader 0x0D (some 200) = [WRITE_SUB ||| 0x0D, 200]) ∧
     (128 ≤ 200 →
       readBytesHeader 0x0D (some 200) =
         [READ_SUB ||| 0x0D, (200 &&& 0x7F) ||| RW_SUB_EXT, 200 >>> 7] ∧
       writeBytesHeader 0x0D (some 200) =
         [WRITE_SUB ||| 0x0D, (200 &&& 0x7F) ||| RW_SUB_EXT, 200 >>> 7]) ∧
     decodeSubAddress (readBytesHeader 0x0D (some 200)) = some 200) :=
  ⟨by norm_num, C3_header_encoding 0x0D 200 (by norm_num)⟩

/-- C7: tune is a pure dispatch over the cached operation mode and the
factory OTP memory: two device states that agree on those two components
produce identical committed register lists, whatever the rest of their
mutable state and whatever was done before. -/
theorem C7_tune_deterministic (s1 s2 : DeviceState)
    (hm : s1.operationMode = s2.operationMode) (ho : s1.otpMem = s2.otpMem) :
    tune s1 = tune s2 := by
  unfold tune
  rw [hm, ho]

/-- Witness for C7: two states sharing mode and OTP but differing in the
sequence number and the chip interrupt mask. -/
theorem C7_tune_deterministic_witness :
    ((exampleState exampleMode 0 3 0xAB).operationMode =
      (exampleState exampleMode 0 77 0).operationMode) ∧
    ((exampleState exampleMode 0 3 0xAB).otpMem =
      (exampleState exampleMode 0 77 0).otpMem) ∧
    tune (exampleState exampleMode 0 3 0xAB) = tune (exampleState exampleMode 0 77 0) :=
  ⟨rfl, rfl, C7_tune_deterministic (exampleState exampleMode 0 3 0xAB)
    (exampleState exampleMode 0 77 0) rfl rfl⟩

/-- C2: the claim fails on the code.  For the fully-set mode with the
64-symbol preamble and the 6800 kbps data rate, tune does not complete: the
branch of tuneDrxtune1b for that mode calls the register object itself
instead of its writeValue method (DW1000.py line 917), raising a TypeError. -/
theorem C2_tune_raises_at_preamble64_rate6800 :
    tune (exampleState exampleMode64 0 0 0) =
      Except.error "TypeError: DW1000Register object is not callable" := rfl

/-- C10: the transmit sequence number stays in [0, 256): the constructor
draw lies in that range, sendMessage places the current seqNum into the
frame header, and the stored value becomes (seqNum + 1) mod 256, which is
again in range. -/
theorem C10_seqNum_invariant (draw : ℕ) (s : DeviceState)
    (dstAddr dstPAN srcAddr : ℕ) (ackReq : Bool)
    (hdraw : draw < 256) (hs : s.seqNum < 256) :
    initSeqNum draw < 256 ∧
    (sendMessage s dstAddr dstPAN srcAddr ackReq).2.seqNumber = s.seqNum ∧
    (sendMessage s dstAddr dstPAN srcAddr ackReq).1.seqNum = (s.seqNum + 1) % 256 ∧
    (sendMessage s dstAddr dstPAN srcAddr ackReq).1.seqNum < 256 := by
  refine ⟨hdraw, rfl, rfl, ?_⟩
  simp only [sendMessage]
  omega

/-- Witness for C10 at draw = 7 and a state with seqNum = 255. -/
theorem C10_seqNum_invariant_witness :
    (7 < 256 ∧ (exampleState exampleMode 0 255 0).seqNum < 256) ∧
    (initSeqNum 7 < 256 ∧
     (sendMessage (exampleState exampleMode 0 255 0) 1 2 3 true).2.seqNumber =
       (exampleState exampleMode 0 255 0).seqNum ∧
     (sendMessage (exampleState exampleMode 0 255 0) 1 2 3 true).1.seqNum =
       ((exampleState exampleMode 0 255 0).seqNum + 1) % 256 ∧
     (sendMessage (exampleState exampleMode 0 255 0) 1 2 3 true).1.seqNum < 256) :=
  ⟨⟨by norm_num, by norm_num [exampleState]⟩,
   C10_seqNum_invariant 7 (exampleState exampleMode 0 255 0) 1 2 3 true
     (by norm_num) (by norm_num [exampleState])⟩

/-- C1 counterexample: with the CIR-power field reading zero and N = 1 the
logarithm argument is non-positive, yet getReceivePower does not return 0:
the guard only zeroes the pre-correction estimate, and the correction branch
then yields PWR_COEFF * CORRFAC_16MHZ.  The abstracted logarithm is
instantiated with the zero function; the guarded branch never applies it. -/
theorem C1_counterexample :
    (((0 : ℚ) * TWOPOWER17) / ((1 : ℚ) * (1 : ℚ)) ≤ 0) ∧
    getReceivePower (fun _ => 0) TX_PULSE_FREQ_16MHZ 0 1 =
      PWR_COEFF * CORRFAC_16MHZ ∧
    PWR_COEFF * CORRFAC_16MHZ ≠ 0 := by
  refine ⟨by norm_num, ?_, by norm_num [PWR_COEFF, CORRFAC_16MHZ]⟩
  norm_num [getReceivePower, TWOPOWER17, PWR_COEFF, CORRFAC_16MHZ, A_16MHZ,
    TX_PULSE_FREQ_16MHZ]

/-- C1 (amended): whenever the logarithm argument cir * 2^17 / N^2 is
non-positive (with N positive, so the Python division is defined), the
pre-correction estimate is zeroed but the saturation correction still
applies, so getReceivePower returns PWR_COEFF times the frequency-selected
correction factor — a nonzero value — instead of 0. -/
theorem C1_receivePower_nonpositive_arg (log10 : ℚ → ℚ) (pf cir N : ℕ) (hN : 0 < N)
    (harg : ((cir : ℚ) * TWOPOWER17) / ((N : ℚ) * (N : ℚ)) ≤ 0) :
    getReceivePower log10 pf cir N =
      PWR_COEFF * (if pf = TX_PULSE_FREQ_16MHZ then CORRFAC_16MHZ else CORRFAC_64MHZ) ∧
    getReceivePower log10 pf cir N ≠ 0 := by
  have hno : ¬ (((cir : ℚ) * TWOPOWER17) / ((N : ℚ) * (N : ℚ)) > 0) := not_lt.mpr harg
  have hthr : ¬ ((0 : ℚ) ≤ -PWR_COEFF) := by norm_num [PWR_COEFF]
  constructor
  · simp only [getReceivePower, if_neg hno, if_neg hthr]
    by_cases hpf : pf = TX_PULSE_FREQ_16MHZ <;> simp [hpf]
  · simp only [getReceivePower, if_neg hno, if_neg hthr]
    by_cases hpf : pf = TX_PULSE_FREQ_16MHZ <;>
      simp [hpf, PWR_COEFF, CORRFAC_16MHZ, CORRFAC_64MHZ] <;> norm_num

/-- Witness for the amended C1 at the 64 MHz pulse frequency, cir = 0,
N = 2. -/
theorem C1_receivePower_nonpositive_arg_witness :
    (0 < 2 ∧ ((0 : ℚ) * TWOPOWER17) / ((2 : ℚ) * (2 : ℚ)) ≤ 0) ∧
    (getReceivePower (fun _ => 0) TX_PULSE_FREQ_64MHZ 0 2 =
      PWR_COEFF *
        (if TX_PULSE_FREQ_64MHZ = TX_PULSE_FREQ_16MHZ then CORRFAC_16MHZ else CORRFAC_64MHZ) ∧
     getReceivePower (fun _ => 0) TX_PULSE_FREQ_64MHZ 0 2 ≠ 0) :=
  ⟨⟨by norm_num, by norm_num⟩,
   C1_receivePower_nonpositive_arg (fun _ => 0) TX_PULSE_FREQ_64MHZ 0 2
     (by norm_num) (by norm_num)⟩

/-- C6: in tune, the crystal-trim register FS_XTALT — the last register
committed — is derived from the byte read from OTP factory memory: if that
byte is exactly zero, the nominal default constant (masked and OR-ed with
the fixed mask) is written; for every non-zero byte the OTP value, masked
and OR-ed the same way, is written.  The dispatch is on the value alone;
the model has no read-error channel, mirroring the code, whose only failure
mode is an exception from the bus layer. -/
theorem C6_tune_crystal_trim (s : DeviceState) (ws : List Reg)
    (h : tune s = Except.ok ws) :
    ws.getLast? = some (Reg.mk FS_CTRL (some FS_XTALT_SUB) 1
      (if byteOf (s.otpMem OTP_XTAL_ADDRESS) 0 = 0
       then (TUNE_OPERATION &&& TUNE_MASK1) ||| TUNE_MASK2
       else (byteOf (s.otpMem OTP_XTAL_ADDRESS) 0 &&& TUNE_MASK1) ||| TUNE_MASK2)) := by
  simp only [tune] at h
  cases htb : tuneDrxtune1b s.operationMode (mkReg DRX_CONF (some DRX_TUNE1b_SUB) 2) with
  | error e =>
      rw [htb] at h
      exact absurd h (by simp)
  | ok r =>
      rw [htb] at h
      have hws : ws = _ := (Except.ok.injEq _ _).mp h |>.symm
      rw [hws]
      by_cases hb : byteOf (s.otpMem OTP_XTAL_ADDRESS) 0 = 0
      · simp only [hb, if_pos, List.getLast?]
        simp [Reg.writeValue, mkReg, List.getLast?, TUNE_OPERATION, TUNE_MASK1, TUNE_MASK2]
        decide
      · have hlt : (byteOf (s.otpMem OTP_XTAL_ADDRESS) 0 &&& TUNE_MASK1) ||| TUNE_MASK2 < 256 := by
          have h256 : (256 : ℕ) = 2 ^ 8 := by norm_num
          have hand : byteOf (s.otpMem OTP_XTAL_ADDRESS) 0 &&& TUNE_MASK1 ≤ 31 :=
            Nat.and_le_right
          rw [h256]
          apply Nat.or_lt_two_pow
          · exact lt_of_le_of_lt hand (by norm_num)
          · norm_num [TUNE_MASK2]
        simp only [hb, if_neg]
        simp [Reg.writeValue, mkReg, List.getLast?, hb, Nat.mod_eq_of_lt hlt]

/-- Witness for C6 at a concrete state whose OTP crystal-trim byte is 5. -/
theorem C6_tune_crystal_trim_witness :
    (tune (exampleState exampleMode 5 0 0) =
      Except.ok (tuneOk (exampleState exampleMode 5 0 0))) ∧
    (tuneOk (exampleState exampleMode 5 0 0)).getLast? =
      some (Reg.mk FS_CTRL (some FS_XTALT_SUB) 1
        (if byteOf ((exampleState exampleMode 5 0 0).otpMem OTP_XTAL_ADDRESS) 0 = 0
         then (TUNE_OPERATION &&& TUNE_MASK1) ||| TUNE_MASK2
         else (byteOf ((exampleState exampleMode 5 0 0).otpMem OTP_XTAL_ADDRESS) 0 &&& TUNE_MASK1) |||
           TUNE_MASK2)) :=
  ⟨by rfl, C6_tune_crystal_trim _ _ (by rfl)⟩

/-- C8: whenever the bracket index rxPowerBase is exactly an integer k in
[0, 17], the interpolated range bias equals the sign-restored,
doubled table entry at index k exactly (for whichever table the channel and
pulse frequency select); and for every power estimate the clamped bracket
bounds low = floor(index) and high = low + 1 lie in [0, 17]. -/
theorem C8_bias_bracket (channel pf : ℕ) (rxPower : ℚ) (k : ℕ)
    (hk : k ≤ 17) (hbase : rxPowerBaseOf rxPower = (k : ℚ)) :
    rangeBiasOf channel pf rxPower =
      (biasTableFor channel pf).map (fun tz => ((signedBiasEntry tz.1 tz.2 (k : ℤ) : ℤ) : ℚ)) ∧
    ∀ p : ℚ,
      0 ≤ (clampBracket ⌊rxPowerBaseOf p⌋ (⌊rxPowerBaseOf p⌋ + 1)).1 ∧
      (clampBracket ⌊rxPowerBaseOf p⌋ (⌊rxPowerBaseOf p⌋ + 1)).1 ≤ 17 ∧
      0 ≤ (clampBracket ⌊rxPowerBaseOf p⌋ (⌊rxPowerBaseOf p⌋ + 1)).2 ∧
      (clampBracket ⌊rxPowerBaseOf p⌋ (⌊rxPowerBaseOf p⌋ + 1)).2 ≤ 17 := by
  constructor
  · simp only [rangeBiasOf]
    rw [hbase]
    have hfl : ⌊(k : ℚ)⌋ = (k : ℤ) := Int.floor_natCast k
    rw [hfl]
    cases hbt : biasTableFor channel pf with
    | none => simp
    | some tz =>
        simp only [Option.map_some]
        by_cases h17 : ((k : ℤ) + 1) > 17
        · have hk17 : k = 17 := by omega
          subst hk17
          have hcl : clampBracket ((17 : ℕ) : ℤ) (((17 : ℕ) : ℤ) + 1) = (17, 17) := by
            norm_num [clampBracket]
          rw [hcl]
          norm_num
        · have hcl : clampBracket (k : ℤ) ((k : ℤ) + 1) = ((k : ℤ), (k : ℤ) + 1) := by
            have hnn : ¬ ((k : ℤ) < 0) := by omega
            simp [clampBracket, hnn, h17]
          rw [hcl]
          norm_num
  · intro p
    by_cases h1 : ⌊rxPowerBaseOf p⌋ < 0
    · simp [clampBracket, h1]
    · by_cases h2 : ⌊rxPowerBaseOf p⌋ + 1 > 17 <;>
        simp [clampBracket, h1, h2] <;> omega

/-- Witness for C8 at channel 5, 16 MHz pulse frequency, power estimate -61
(bracket index exactly 0). -/
theorem C8_bias_bracket_witness :
    ((0 : ℕ) ≤ 17 ∧ rxPowerBaseOf (-61) = ((0 : ℕ) : ℚ)) ∧
    (rangeBiasOf CHANNEL_5 TX_PULSE_FREQ_16MHZ (-61) =
      (biasTableFor CHANNEL_5 TX_PULSE_FREQ_16MHZ).map
        (fun tz => ((signedBiasEntry tz.1 tz.2 ((0 : ℕ) : ℤ) : ℤ) : ℚ)) ∧
     ∀ p : ℚ,
       0 ≤ (clampBracket ⌊rxPowerBaseOf p⌋ (⌊rxPowerBaseOf p⌋ + 1)).1 ∧
       (clampBracket ⌊rxPowerBaseOf p⌋ (⌊rxPowerBaseOf p⌋ + 1)).1 ≤ 17 ∧
       0 ≤ (clampBracket ⌊rxPowerBaseOf p⌋ (⌊rxPowerBaseOf p⌋ + 1)).2 ∧
       (clampBracket ⌊rxPowerBaseOf p⌋ (⌊rxPowerBaseOf p⌋ + 1)).2 ≤ 17) :=
  ⟨⟨by norm_num, by norm_num [rxPowerBaseOf]⟩,
   C8_bias_bracket CHANNEL_5 TX_PULSE_FREQ_16MHZ (-61) 0 (by norm_num)
     (by norm_num [rxPowerBaseOf])⟩

/-- C9: syncHSRBP reads the status register and issues the buffer-pointer
toggle exactly when the host-side and chip-side pointer bits are equal; a
system-control write happens precisely when they are equal and double
buffering is on, and toggleHSRBP with double buffering off is a complete
no-op (state unchanged, no bus traffic). -/
theorem C9_syncHSRBP_toggleHSRBP (s : DeviceState) :
    (s.dblbuffon = false → toggleHSRBP s = (s, [])) ∧
    (syncHSRBP s).2 =
      BusOp.readReg SYS_STATUS none ::
        (if (getBitN s.chipSysstatus HSRBP_BIT = getBitN s.chipSysstatus ICRBP_BIT) ∧
            s.dblbuffon = true
         then [BusOp.writeReg SYS_MASK none
                 (setBitsN 32 s.locSysmask [MRXFCE_BIT, MRXFCG_BIT, MRXDFR_BIT, MLDEDONE_BIT] false),
               BusOp.writeReg SYS_CTRL none (setBitN 32 s.locSysctrl HRBPT_BIT true),
               BusOp.writeReg SYS_MASK none s.locSysmask]
         else []) ∧
    ((∃ v, BusOp.writeReg SYS_CTRL none v ∈ (syncHSRBP s).2) ↔
      ((getBitN s.chipSysstatus HSRBP_BIT = getBitN s.chipSysstatus ICRBP_BIT) ∧
        s.dblbuffon = true)) := by
  refine ⟨?_, ?_, ?_⟩
  · intro hdb
    simp [toggleHSRBP, hdb]
  · by_cases heq : getBitN s.chipSysstatus HSRBP_BIT = getBitN s.chipSysstatus ICRBP_BIT <;>
      by_cases hdb : s.dblbuffon <;>
        simp [syncHSRBP, toggleHSRBP, readSysstatus, writeSysmask, writeSysctrl, heq, hdb]
  · by_cases heq : getBitN s.chipSysstatus HSRBP_BIT = getBitN s.chipSysstatus ICRBP_BIT <;>
      by_cases hdb : s.dblbuffon <;>
        simp [syncHSRBP, toggleHSRBP, readSysstatus, writeSysmask, writeSysctrl, heq, hdb] <;>
        exact ⟨setBitN 32 s.locSysctrl HRBPT_BIT true, Or.inr (Or.inl rfl)⟩

/-- Witness for C9 at a concrete quiescent state with double buffering off
and equal pointer bits. -/
theorem C9_syncHSRBP_toggleHSRBP_witness :
    ((exampleState exampleMode 0 0 0).dblbuffon = false →
      toggleHSRBP (exampleState exampleMode 0 0 0) = (exampleState exampleMode 0 0 0, [])) ∧
    (syncHSRBP (exampleState exampleMode 0 0 0)).2 =
      BusOp.readReg SYS_STATUS none ::
        (if (getBitN (exampleState exampleMode 0 0 0).chipSysstatus HSRBP_BIT =
              getBitN (exampleState exampleMode 0 0 0).chipSysstatus ICRBP_BIT) ∧
            (exampleState exampleMode 0 0 0).dblbuffon = true
         then [BusOp.writeReg SYS_MASK none
                 (setBitsN 32 (exampleState exampleMode 0 0 0).locSysmask
                   [MRXFCE_BIT, MRXFCG_BIT, MRXDFR_BIT, MLDEDONE_BIT] false),
               BusOp.writeReg SYS_CTRL none
                 (setBitN 32 (exampleState exampleMode 0 0 0).locSysctrl HRBPT_BIT true),
               BusOp.writeReg SYS_MASK none (exampleState exampleMode 0 0 0).locSysmask]
         else []) ∧
    ((∃ v, BusOp.writeReg SYS_CTRL none v ∈ (syncHSRBP (exampleState exampleMode 0 0 0)).2) ↔
      ((getBitN (exampleState exampleMode 0 0 0).chipSysstatus HSRBP_BIT =
         getBitN (exampleState exampleMode 0 0 0).chipSysstatus ICRBP_BIT) ∧
        (exampleState exampleMode 0 0 0).dblbuffon = true)) :=
  C9_syncHSRBP_toggleHSRBP (exampleState exampleMode 0 0 0)

/-- C4: forceTRxOff performs, in order: read (save) the interrupt mask,
disable interrupt delivery, write zero to the mask register, write the
transceiver-off bit to the control register, write the TX/RX status clear
pattern, run the pointer resynchronisation (a status read followed by the
toggle writes exactly when the post-clear pointer bits agree and double
buffering is on), and finally write the saved mask back — so the chip mask
register afterwards holds exactly the value it held before the call. -/
theorem C4_forceTRxOff_sequence (s : DeviceState) :
    (forceTRxOff s).1.chipSysmask = s.chipSysmask ∧
    (forceTRxOff s).2 =
      [BusOp.readReg SYS_MASK none, BusOp.irqDisable,
       BusOp.writeReg SYS_MASK none 0,
       BusOp.writeReg SYS_CTRL none (setBitN 32 0 TRXOFF_BIT true),
       BusOp.writeReg SYS_STATUS none trxStatusClearVal,
       BusOp.readReg SYS_STATUS none] ++
      (if (getBitN (w1cWrite s.chipSysstatus trxStatusClearVal) HSRBP_BIT =
            getBitN (w1cWrite s.chipSysstatus trxStatusClearVal) ICRBP_BIT) ∧
          s.dblbuffon = true
       then [BusOp.writeReg SYS_MASK none 0,
             BusOp.writeReg SYS_CTRL none
               (setBitN 32 (setBitN 32 0 TRXOFF_BIT true) HRBPT_BIT true),
             BusOp.writeReg SYS_MASK none 0]
       else []) ++
      [BusOp.writeReg SYS_MASK none s.chipSysmask] := by
  have hval : setBitsN 40 0 (SYS_STATUS_ALL_TX ++ (SYS_STATUS_ALL_RX_ERR ++
      (SYS_STATUS_ALL_RX_TO ++ SYS_STATUS_ALL_RX_GOOD))) true = trxStatusClearVal := by
    unfold trxStatusClearVal
    rw [List.append_assoc, List.append_assoc]
  constructor
  · by_cases heq : getBitN (w1cWrite s.chipSysstatus trxStatusClearVal) HSRBP_BIT =
        getBitN (w1cWrite s.chipSysstatus trxStatusClearVal) ICRBP_BIT <;>
      by_cases hdb : s.dblbuffon <;>
        simp [forceTRxOff, readSysmask, disableInterrupt, writeSysmask, writeSysctrl,
          clearStatus, writeSysstatus, syncHSRBP, readSysstatus, toggleHSRBP,
          hval, heq, hdb, setBitsN_zero_false]
  · by_cases heq : getBitN (w1cWrite s.chipSysstatus trxStatusClearVal) HSRBP_BIT =
        getBitN (w1cWrite s.chipSysstatus trxStatusClearVal) ICRBP_BIT <;>
      by_cases hdb : s.dblbuffon <;>
        simp [forceTRxOff, readSysmask, disableInterrupt, writeSysmask, writeSysctrl,
          clearStatus, writeSysstatus, syncHSRBP, readSysstatus, toggleHSRBP,
          hval, heq, hdb, setBitsN_zero_false]

end DW1000
